import Mathlib

/-!
Verification development for the COPD lung-sound backend (FastAPI + MongoDB +
ONNX/PyTorch inference).  Every definition below is a shallow embedding of a
function of the Python source under `backend/app/`; the theorems then settle
the specification claims about those functions.
-/

/-- Enumeration `Label` from `app/models/prediction.py` (lines 10-14): the four
respiratory sound classes in Python declaration order (CRACKLE, WHEEZE, BOTH,
NONE). -/
inductive Label
  | crackle
  | wheeze
  | both
  | none
  deriving DecidableEq, Repr

/-- String value of a `Label` member (it is a `str, Enum`, so for example
`Label.CRACKLE.value == "crackle"`). -/
def Label.value : Label → String
  | .crackle => "crackle"
  | .wheeze => "wheeze"
  | .both => "both"
  | .none => "none"

/-- Python `list(Label)`: the enumeration members in declaration order. -/
def labelList : List Label := [.crackle, .wheeze, .both, .none]

/-- Enumeration `PredictionStatus` from `app/models/prediction.py` (lines
17-21). -/
inductive PredictionStatus
  | pending
  | processing
  | completed
  | failed
  deriving DecidableEq, Repr

/-- String value of a `PredictionStatus` member. -/
def PredictionStatus.value : PredictionStatus → String
  | .pending => "pending"
  | .processing => "processing"
  | .completed => "completed"
  | .failed => "failed"

/-- Field names declared on the pydantic `Settings` model in
`app/core/config.py` (lines 22-39).  pydantic v2 raises `AttributeError` for
any attribute that is not a declared field, and `BaseSettings` silently ignores
undeclared keys coming from the environment or from
`Settings(**workflow_config)`, so no run-time configuration can add a field to
this list. -/
def settingsFieldNames : List String :=
  ["app_name", "environment", "mongo_uri", "mongo_db", "storage_bucket",
   "upload_dir", "model_path", "inference_batch_size", "allow_origins",
   "infra_path", "momo_path"]

/-- Whether `settings.<name>` is a declared field of `Settings`. -/
def settingsHasAttr (name : String) : Bool := settingsFieldNames.contains name

/-- Attribute access `settings.<name>` under a configuration that assigns the
string `values name` to every declared field: an undeclared attribute yields
`none` (Python raises `AttributeError`). -/
def settingsAttr (values : String → String) (name : String) : Option String :=
  if settingsHasAttr name then some (values name) else Option.none

/-- Message of the `AttributeError` raised by reading `settings.model_type`. -/
def modelTypeAttrError : String :=
  "AttributeError: Settings object has no attribute model_type"

/-- The two inference backends the service getter can hand out. -/
inductive InferenceBackend
  | onnx
  | pytorch
  deriving DecidableEq, Repr

/-- Reading `settings.model_type`: either the attribute exists with a string
value, or the read raises `AttributeError` (embedded as `Except.error`). -/
def readModelType (mt : Option String) : Except String String :=
  match mt with
  | some s => Except.ok s
  | Option.none => Except.error modelTypeAttrError

/-- Embedding of `get_inference_service` (`app/services/inference.py`, lines
14-21): evaluate `settings.model_type.lower()`; on `"pytorch"` return the
PyTorch inference service, otherwise default to the module-level ONNX
service. -/
def get_inference_service (mt : Option String) : Except String InferenceBackend :=
  match readModelType mt with
  | Except.error e => Except.error e
  | Except.ok s =>
      if s.toLower == "pytorch" then Except.ok InferenceBackend.pytorch
      else Except.ok InferenceBackend.onnx

/-- Dictionary returned by both `predict` implementations: `label`,
`confidence`, and the `probabilities` dictionary in insertion order. -/
structure PredictResult where
  label : Label
  confidence : ℚ
  probabilities : List (String × ℚ)
  deriving DecidableEq, Repr

/-- Python `int(probabilities.argmax())` over a four-entry probability vector:
index of the first occurrence of the maximum (a later index wins only on a
strictly greater value). -/
def argmax4 (p : Fin 4 → ℚ) : Fin 4 :=
  (List.finRange 4).foldl (fun best i => if p best < p i then i else best) 0

/-- Python `list(Label)[i]`. -/
def labelAt (i : Fin 4) : Label := labelList.get ⟨i.val, i.isLt⟩

/-- Embedding of `AudioInferenceService.predict` (`app/services/inference.py`,
lines 41-62) as a function of the softmax probability vector `p`.  The two
services carry textually identical `_softmax` helpers, so identical classifier
logits yield the identical vector `p`; the classifier has four output classes
(`n_cls` defaults to 4), so `p` has four entries.  The label is
`list(Label)[label_idx]` and the dictionary comprehension runs over
`enumerate(Label)`. -/
def onnx_predict (p : Fin 4 → ℚ) : PredictResult :=
  let label_idx := argmax4 p
  { label := labelAt label_idx
    confidence := p label_idx
    probabilities := (List.finRange 4).map (fun idx => ((labelAt idx).value, p idx)) }

/-- The literal `label_mapping` dictionary of
`PyTorchAudioInferenceService.predict` (`app/services/pytorch_inference.py`,
lines 128-133), in insertion order: model classes are
(normal, crackle, wheeze, both). -/
def pytorch_label_mapping : List (Fin 4 × Label) :=
  [(0, Label.none), (1, Label.crackle), (2, Label.wheeze), (3, Label.both)]

/-- Embedding of `PyTorchAudioInferenceService.predict`
(`app/services/pytorch_inference.py`, lines 118-151) as a function of the same
softmax probability vector.  The label is `label_mapping.get(label_idx,
Label.NONE)`; the probability dictionary iterates `enumerate(Label)` and for
each member scans `label_mapping` for the first model index mapped to it, the
for-else writing 0.0 when none is found. -/
def pytorch_predict (p : Fin 4 → ℚ) : PredictResult :=
  let label_idx := argmax4 p
  { label := (pytorch_label_mapping.lookup label_idx).getD Label.none
    confidence := p label_idx
    probabilities := labelList.map (fun l =>
      match pytorch_label_mapping.find? (fun mi => mi.2 == l) with
      | some mi => (l.value, p mi.1)
      | Option.none => (l.value, 0)) }

/-- Which array `_process_prediction` handed to the backend it selected. -/
inductive PredictInput
  | rawWaveform (w : List ℚ)
  | melFeatures (f : List (List ℚ))
  deriving DecidableEq, Repr

/-- Environment of one `_process_prediction` run: the `settings.model_type`
attribute and the results of the fallible steps (waveform decoding, feature
extraction, backend inference), each an `Except` carrying the message of the
exception the step may raise. -/
structure PipelineEnv where
  model_type : Option String
  load_waveform_r : Except String (List ℚ)
  extract_mel_r : List ℚ → Except String (List (List ℚ))
  onnx_predict_r : List (List ℚ) → Except String PredictResult
  pytorch_predict_r : List ℚ → Except String PredictResult

/-- The try-block of `_process_prediction` (`app/routers/audio.py`, lines
87-103): select the service, load the waveform, then hand the PyTorch backend
the raw waveform and the ONNX backend the mel-spectrogram features extracted
from it.  (The code re-tests `settings.model_type.lower() == "pytorch"` for the
input choice; that test reads the same attribute that already succeeded inside
`get_inference_service`, so it agrees with the backend selected there.) -/
def pipelineInference (env : PipelineEnv) :
    Except String (InferenceBackend × PredictInput × PredictResult) := do
  let svc ← get_inference_service env.model_type
  let w ← env.load_waveform_r
  match svc with
  | InferenceBackend.pytorch => do
      let r ← env.pytorch_predict_r w
      pure (svc, PredictInput.rawWaveform w, r)
  | InferenceBackend.onnx => do
      let f ← env.extract_mel_r w
      let r ← env.onnx_predict_r f
      pure (svc, PredictInput.melFeatures f, r)

/-- Terminal write `_process_prediction` performs on the prediction document. -/
inductive StoredStatus
  | completed (label : Label) (confidence : ℚ) (probabilities : List (String × ℚ))
  | failed (notes : String)
  deriving DecidableEq, Repr

/-- Embedding of `_process_prediction` (`app/routers/audio.py`, lines 82-121):
on success `update_status(COMPLETED, label, confidence, probabilities)`, on any
exception `update_status(FAILED, notes=str(exc))`.  The Boolean records whether
the stored audio file was deleted: the deletion call in the `finally` block is
commented out, so it never is. -/
def process_prediction (env : PipelineEnv) : StoredStatus × Bool :=
  match pipelineInference env with
  | Except.ok out =>
      (StoredStatus.completed out.2.2.label out.2.2.confidence out.2.2.probabilities, false)
  | Except.error e => (StoredStatus.failed e, false)

/-- Python `str.startswith`: a character-level prefix test. -/
def pyStartsWith (s pre : String) : Bool := pre.toList.isPrefixOf s.toList

/-- Content-type check of `upload_audio` (`app/routers/audio.py`, lines 40-41):
`if not file.content_type or not file.content_type.startswith("audio")`,
with `none` for a missing content type and the empty string falsy. -/
def contentTypeAccepted (ct : Option String) : Bool :=
  match ct with
  | Option.none => false
  | some s => (!s.isEmpty) && pyStartsWith s "audio"

/-- Side effects of one call to the upload endpoint. -/
structure UploadEffects where
  fileStored : Bool
  documentCreated : Bool
  tasksScheduled : Nat
  deriving DecidableEq, Repr

/-- Response of the upload endpoint. -/
inductive UploadResponse
  | httpError (status : Nat) (detail : String)
  | created (status : Nat) (returnedStatus : PredictionStatus)
  deriving DecidableEq, Repr

/-- Embedding of `upload_audio` (`app/routers/audio.py`, lines 33-51): reject a
missing or non-audio content type with HTTP 400 before any side effect;
otherwise save the file, create the document (`PredictionRepository.create`
stores status PENDING and the returned `Prediction` carries it), schedule one
`asyncio.create_task`, and return the still-pending prediction with status code
201.  The disk and database writes are thin awaited wrappers modelled as
succeeding; the created task is fire-and-forget, so the response does not wait
for it. -/
def upload_audio (ct : Option String) : UploadResponse × UploadEffects :=
  if contentTypeAccepted ct then
    (UploadResponse.created 201 PredictionStatus.pending,
     { fileStored := true, documentCreated := true, tasksScheduled := 1 })
  else
    (UploadResponse.httpError 400 "Unsupported file type",
     { fileStored := false, documentCreated := false, tasksScheduled := 0 })

/-- Outcome of `load_model_with_wrapper`: the returned pair, a raised
`RuntimeError`, or an exception of another class that propagates uncaught. -/
inductive LoadModelOutcome
  | pair (model classifier : Nat)
  | runtimeError (msg : String)
  | uncaughtError (msg : String)
  deriving DecidableEq, Repr

/-- Embedding of `load_model_with_wrapper` (`app/models/hftt_model.py`, lines
87-200).  The body begins with the unguarded
`checkpoint = torch.load(str(checkpoint_path), ...)` at line 106:
`checkpointLoad` is its result, and when it raises (a missing file gives
`FileNotFoundError`, a corrupt file `UnpicklingError`) that exception
propagates as-is, before the guard is ever evaluated and outside every
try-block of the function.  `use_icbhi_import` and `icbhi_path` are the
arguments (a `Path` object defines no `__bool__`, so `icbhi_path` is truthy
exactly when it is not `None`); `icbhiDirExists` is
`Path(icbhi_path).exists()`; `importBranch` is the result of the guarded
try-block (sys.path insertion, chdir, dynamic import of `get_backbone_class`,
architecture construction and state-dict loading), `Except.ok` with the
constructed `(model, classifier)` pair - here opaque tokens - or
`Except.error` with the message of whatever exception it raised (including the
`ValueError` for an unsupported model type).  When the guard fails the
function falls through to an unconditional `raise RuntimeError`; when the
branch raises, the handler re-raises `RuntimeError`, so no path falls back to
a locally defined architecture. -/
def load_model_with_wrapper (checkpointLoad : Except String Unit)
    (use_icbhi_import : Bool) (icbhi_path : Option String)
    (icbhiDirExists : Bool) (importBranch : Except String (Nat × Nat)) :
    LoadModelOutcome :=
  match checkpointLoad with
  | Except.error e => LoadModelOutcome.uncaughtError e
  | Except.ok _ =>
      if use_icbhi_import && icbhi_path.isSome && icbhiDirExists then
        match importBranch with
        | Except.ok mc => LoadModelOutcome.pair mc.1 mc.2
        | Except.error e =>
            LoadModelOutcome.runtimeError
              ("Failed to load PyTorch model: Could not import from ICBHI_2017: " ++ e)
      else
        LoadModelOutcome.runtimeError
          ("Cannot load model without ICBHI_2017 architecture. " ++
           "Please ensure ICBHI_2017 directory is accessible or provide icbhi_path.")

/-- One execution of the critical section of `load()`
(`AudioInferenceService.load`, `app/services/inference.py` lines 32-39, and
`PyTorchAudioInferenceService.load`, `app/services/pytorch_inference.py` lines
37-72): under `async with self._lock`, construct the session (respectively the
model and classifier pair) only when none exists.  `fresh` identifies the
object the constructor would produce in this call; the Boolean reports whether
a construction happened. -/
def loadCriticalSection (fresh : Nat) (state : Option Nat) : Option Nat × Bool :=
  match state with
  | Option.none => (some fresh, true)
  | some s => (some s, false)

/-- A run of finitely many `load()` calls against one service instance.
Neither critical section awaits after the lock is acquired, and the lock
serializes them in any case, so every concurrent execution on the asyncio event
loop is some sequence of `loadCriticalSection` steps; the second component
counts how many constructions happened. -/
def runLoads (state : Option Nat) (freshes : List Nat) : Option Nat × Nat :=
  freshes.foldl
    (fun acc fresh =>
      let st := loadCriticalSection fresh acc.1
      (st.1, acc.2 + (if st.2 then 1 else 0)))
    (state, 0)

/-- Guard at the top of both `predict` implementations:
`if self._session is None: await self.load()` (respectively `self._model`). -/
def predictTriggersLoad (state : Option Nat) : Bool := state.isNone

/-- Constant `DEFAULT_SAMPLE_RATE` of `app/utils/audio.py`. -/
def DEFAULT_SAMPLE_RATE : Nat := 16000

/-- Constant `DEFAULT_DURATION_SEC` of `app/utils/audio.py`. -/
def DEFAULT_DURATION_SEC : Nat := 5

/-- Embedding of `load_waveform` (`app/utils/audio.py`, lines 13-22): `decoded`
is the mono waveform `librosa.load` decoded at `sample_rate`; a shorter
waveform is padded at the end with zeros (`np.pad` with `(0, pad_width)`), any
other waveform is sliced to its first `sample_rate * DEFAULT_DURATION_SEC`
samples. -/
def load_waveform (decoded : List ℚ) (sample_rate : Nat) : List ℚ :=
  let target_length := sample_rate * DEFAULT_DURATION_SEC
  if decoded.length < target_length then
    decoded ++ List.replicate (target_length - decoded.length) 0
  else
    decoded.take target_length

/-- Hexadecimal digit as accepted by `bytes.fromhex`. -/
def isHexChar (c : Char) : Bool :=
  c.isDigit || ('a' ≤ c && c ≤ 'f') || ('A' ≤ c && c ≤ 'F')

/-- Validity of a string as a BSON ObjectId: `bson.ObjectId(oid)` accepts a
24-character hexadecimal string and raises `InvalidId` otherwise.  (A
24-character string with interior whitespace can slip through `bytes.fromhex`
with fewer than 12 bytes, but such an id equals no stored 12-byte `_id`, so at
the level of the claims below it behaves exactly like an invalid one.) -/
def isValidObjectId (s : String) : Bool :=
  s.length == 24 && s.toList.all isHexChar

/-- A stored prediction document (`Prediction` in `app/models/prediction.py`):
enum-valued fields are stored as their `.value` strings and timestamps as
abstract ticks, optional fields as `Option`. -/
structure StoredDoc where
  filename : String
  content_type : String
  file_size : Nat
  storage_path : String
  status : String
  label : Option String
  confidence : Option ℚ
  probabilities : Option (List (String × ℚ))
  created_at : Nat
  updated_at : Nat
  user_id : Option String
  notes : Option String
  deriving DecidableEq, Repr

/-- Embedding of `PredictionRepository.get` (`app/repositories/predictions.py`,
lines 38-47): an `ObjectId(prediction_id)` failure is caught (`except
InvalidId: return None`); otherwise `find_one`, with a missing document also
yielding `None`.  The collection is an association list keyed by the
24-character hexadecimal id strings. -/
def repository_get (db : List (String × StoredDoc)) (id : String) :
    Option StoredDoc :=
  if isValidObjectId id then db.lookup id else Option.none

/-- Embedding of the GET endpoint `get_prediction` (`app/routers/audio.py`,
lines 59-66): a `None` repository result becomes HTTP 404 and any other
document is returned unchanged. -/
def get_prediction_endpoint (db : List (String × StoredDoc)) (id : String) :
    Except (Nat × String) StoredDoc :=
  match repository_get db id with
  | Option.none => Except.error (404, "Prediction not found")
  | some p => Except.ok p

/-- The `$set` document built by `PredictionRepository.update_status`
(`app/repositories/predictions.py`, lines 66-77) applied to a stored document:
`status` and `updated_at` are always written, and each of `label`,
`confidence`, `probabilities`, `notes` only when the argument is not `None`
(`label` as its `.value` string). -/
def applySetUpdates (doc : StoredDoc) (status : PredictionStatus)
    (label : Option Label) (confidence : Option ℚ)
    (probabilities : Option (List (String × ℚ))) (notes : Option String)
    (now : Nat) : StoredDoc :=
  { doc with
    status := status.value
    updated_at := now
    label := match label with | some l => some l.value | Option.none => doc.label
    confidence := match confidence with | some c => some c | Option.none => doc.confidence
    probabilities :=
      match probabilities with | some pr => some pr | Option.none => doc.probabilities
    notes := match notes with | some n => some n | Option.none => doc.notes }

/-- Embedding of `PredictionRepository.update_status`
(`app/repositories/predictions.py`, lines 53-83): `ObjectId(prediction_id)` is
evaluated outside any try-block, so an invalid id string raises `InvalidId`
(embedded as `Except.error`, the collection untouched); otherwise
`find_one_and_update` returns `None` and leaves the collection unchanged when
no document matches, and replaces the matching document with the
`$set`-updated one otherwise, `ReturnDocument.AFTER` returning the updated
document. -/
def update_status (db : List (String × StoredDoc)) (id : String)
    (status : PredictionStatus) (label : Option Label) (confidence : Option ℚ)
    (probabilities : Option (List (String × ℚ))) (notes : Option String)
    (now : Nat) : Except String (Option StoredDoc × List (String × StoredDoc)) :=
  if isValidObjectId id then
    match db.lookup id with
    | Option.none => Except.ok (Option.none, db)
    | some doc =>
        let d := applySetUpdates doc status label confidence probabilities notes now
        Except.ok (some d, db.map (fun kv => if kv.1 = id then (kv.1, d) else kv))
  else
    Except.error "InvalidId"

deriving instance DecidableEq for Except

/-- A concrete stored document, used to instantiate the theorems below. -/
def exampleDoc : StoredDoc :=
  { filename := "clip.wav"
    content_type := "audio/wav"
    file_size := 160000
    storage_path := "/tmp/copd/uploads/clip.wav"
    status := "pending"
    label := Option.none
    confidence := Option.none
    probabilities := Option.none
    created_at := 0
    updated_at := 0
    user_id := Option.none
    notes := Option.none }

/-- A concrete valid ObjectId string. -/
def exampleId : String := "507f1f77bcf86cd799439011"

/-- A one-document collection. -/
def exampleDb : List (String × StoredDoc) := [(exampleId, exampleDoc)]

/-- The softmax vector (2/5, 3/10, 1/5, 1/10): positive entries summing to 1,
so it is the softmax image of a concrete logits vector (its componentwise
logarithm). -/
def probsExample : Fin 4 → ℚ := fun i =>
  if i = 0 then 2/5 else if i = 1 then 3/10 else if i = 2 then 1/5 else 1/10

/-- Helper: `"model_type"` is not among the declared `Settings` fields. -/
theorem settingsHasAttr_model_type_false : settingsHasAttr "model_type" = false := by
  decide

/-- Claim C1 (code bug): `Settings` declares no `model_type` field, so under
every configuration - every assignment of values to the declared fields - the
read `settings.model_type` raises `AttributeError` and `get_inference_service`
fails instead of returning either service; had the attribute carried a string,
the selection would have been the PyTorch service exactly on a lowercased value
of "pytorch" and the ONNX service otherwise, as the claim and the code
docstring describe. -/
theorem get_inference_service_raises_attributeError :
    ∀ values : String → String,
      settingsAttr values "model_type" = Option.none ∧
      get_inference_service (settingsAttr values "model_type") =
        Except.error modelTypeAttrError ∧
      (∀ s : String,
        get_inference_service (some s) =
          Except.ok
            (if s.toLower == "pytorch" then InferenceBackend.pytorch
             else InferenceBackend.onnx)) := by
  intro values
  have h : settingsAttr values "model_type" = Option.none := by
    simp [settingsAttr, settingsHasAttr_model_type_false]
  refine ⟨h, by rw [h]; rfl, ?_⟩
  intro s
  by_cases hs : s.toLower == "pytorch"
  · simp [get_inference_service, readModelType, hs]
  · simp [get_inference_service, readModelType] at hs ⊢
    simp [hs]

/-- Claim C2, counterexample: for the identical softmax vector
(2/5, 3/10, 1/5, 1/10) the ONNX service answers CRACKLE while the PyTorch
service answers NONE, and the probability the two services assign to the label
string "crackle" differs (2/5 versus 3/10). -/
theorem backend_label_mapping_disagree :
    (onnx_predict probsExample).label ≠ (pytorch_predict probsExample).label ∧
    (onnx_predict probsExample).probabilities.lookup "crackle" ≠
      (pytorch_predict probsExample).probabilities.lookup "crackle" := by
  have harg : argmax4 probsExample = 0 := by
    unfold argmax4
    rw [show List.finRange 4 = [0, 1, 2, 3] from by decide]
    simp +decide only [List.foldl, probsExample]
    norm_num
  constructor
  · show labelAt (argmax4 probsExample) ≠
      (pytorch_label_mapping.lookup (argmax4 probsExample)).getD Label.none
    rw [harg]
    decide
  · have h1 : (onnx_predict probsExample).probabilities.lookup "crackle" =
        some (probsExample 0) := rfl
    have h2 : (pytorch_predict probsExample).probabilities.lookup "crackle" =
        some (probsExample 1) := rfl
    rw [h1, h2]
    simp +decide only [probsExample]
    norm_num

/-- Claim C2 (amended): for identical classifier logits both backends compute
the same softmax vector `p` and return the same confidence `p (argmax4 p)`,
and both probability dictionaries list exactly the four label strings in
declaration order; but ONNX maps output index `i` to `list(Label)[i]` -
(crackle, wheeze, both, none) - while PyTorch maps indices (0, 1, 2, 3) to
(none, crackle, wheeze, both), so the probability ONNX assigns to a label is
the one PyTorch assigns to the label one place later in that cycle, and the
returned labels agree only when the argmax index is sent to the same member by
both mappings. -/
theorem backend_index_permutation (p : Fin 4 → ℚ) :
    (onnx_predict p).confidence = (pytorch_predict p).confidence ∧
    (onnx_predict p).label = labelAt (argmax4 p) ∧
    (pytorch_predict p).label =
      (pytorch_label_mapping.lookup (argmax4 p)).getD Label.none ∧
    (onnx_predict p).probabilities =
      [("crackle", p 0), ("wheeze", p 1), ("both", p 2), ("none", p 3)] ∧
    (pytorch_predict p).probabilities =
      [("crackle", p 1), ("wheeze", p 2), ("both", p 3), ("none", p 0)] :=
  ⟨rfl, rfl, rfl, rfl, rfl⟩

/-- Claim C3: every terminating run of `_process_prediction` leaves the
document in exactly one terminal status - COMPLETED carrying the label,
confidence and probabilities of the inference result when the try-block
succeeds, or FAILED carrying the string of the raised exception when any step
(service selection, waveform loading, feature extraction or inference) raises -
and in both cases the stored audio file is not deleted. -/
theorem process_prediction_terminal (env : PipelineEnv) :
    (∃ out, pipelineInference env = Except.ok out ∧
        process_prediction env =
          (StoredStatus.completed out.2.2.label out.2.2.confidence
             out.2.2.probabilities, false)) ∨
    (∃ e, pipelineInference env = Except.error e ∧
        process_prediction env = (StoredStatus.failed e, false)) := by
  cases h : pipelineInference env with
  | ok out => exact Or.inl ⟨out, rfl, by simp [process_prediction, h]⟩
  | error e => exact Or.inr ⟨e, rfl, by simp [process_prediction, h]⟩

/-- Helper: every `list(Label)` position holds a member of `labelList` and the
ONNX dictionary reports `p i` for the label at position `i`. -/
theorem onnx_lookup_at (p : Fin 4 → ℚ) (i : Fin 4) :
    (onnx_predict p).probabilities.lookup (labelAt i).value = some (p i) := by
  fin_cases i <;> rfl

/-- Helper: the PyTorch dictionary reports `p i` for the label that
`label_mapping` assigns to model index `i`. -/
theorem pytorch_lookup_at (p : Fin 4 → ℚ) (i : Fin 4) :
    (pytorch_predict p).probabilities.lookup
      ((pytorch_label_mapping.lookup i).getD Label.none).value = some (p i) := by
  fin_cases i <;> rfl

/-- Claim C4: every successful prediction result from either backend carries a
label among the four members of `Label`, a probability dictionary whose key
list is exactly the four label strings, and a confidence equal to the
probability the dictionary reports for the returned label. -/
theorem predict_results_wellformed (p : Fin 4 → ℚ) :
    ((onnx_predict p).label ∈ labelList ∧
     (onnx_predict p).probabilities.map Prod.fst =
       ["crackle", "wheeze", "both", "none"] ∧
     (onnx_predict p).probabilities.lookup (onnx_predict p).label.value =
       some (onnx_predict p).confidence) ∧
    ((pytorch_predict p).label ∈ labelList ∧
     (pytorch_predict p).probabilities.map Prod.fst =
       ["crackle", "wheeze", "both", "none"] ∧
     (pytorch_predict p).probabilities.lookup (pytorch_predict p).label.value =
       some (pytorch_predict p).confidence) := by
  have h1 : ∀ i : Fin 4, labelAt i ∈ labelList := by decide
  have h2 : ∀ i : Fin 4,
      (pytorch_label_mapping.lookup i).getD Label.none ∈ labelList := by decide
  exact ⟨⟨h1 (argmax4 p), rfl, onnx_lookup_at p (argmax4 p)⟩,
         ⟨h2 (argmax4 p), rfl, pytorch_lookup_at p (argmax4 p)⟩⟩

/-- Helper: a string that starts with "audio" is not empty (so it is truthy in
the Python guard). -/
theorem startsWith_audio_not_empty (s : String) (h : pyStartsWith s "audio" = true) :
    s.isEmpty = false := by
  cases hs : s.isEmpty
  · rfl
  · rw [String.isEmpty_iff] at hs
    subst hs
    exact absurd h (by decide)

/-- Claim C5: an upload whose content type is missing or does not start with
"audio" fails with HTTP 400 and performs no side effect - no file stored, no
document created, no task scheduled; any other upload stores the file, creates
the document with status PENDING, schedules exactly one background task, and
returns the still-pending prediction with HTTP 201 without waiting for
inference to finish. -/
theorem upload_audio_validation (ct : Option String) :
    (ct = Option.none →
      upload_audio ct =
        (UploadResponse.httpError 400 "Unsupported file type",
         { fileStored := false, documentCreated := false, tasksScheduled := 0 })) ∧
    (∀ s, ct = some s → pyStartsWith s "audio" = false →
      upload_audio ct =
        (UploadResponse.httpError 400 "Unsupported file type",
         { fileStored := false, documentCreated := false, tasksScheduled := 0 })) ∧
    (∀ s, ct = some s → pyStartsWith s "audio" = true →
      upload_audio ct =
        (UploadResponse.created 201 PredictionStatus.pending,
         { fileStored := true, documentCreated := true, tasksScheduled := 1 })) := by
  refine ⟨?_, ?_, ?_⟩
  · rintro rfl
    rfl
  · rintro s rfl h
    simp [upload_audio, contentTypeAccepted, h]
  · rintro s rfl h
    simp [upload_audio, contentTypeAccepted, h, startsWith_audio_not_empty s h]

/-- Witness for C5 at concrete content types: "audio/wav" is accepted,
"text/plain" and a missing content type are rejected. -/
theorem upload_audio_validation_witness :
    upload_audio (some "audio/wav") =
      (UploadResponse.created 201 PredictionStatus.pending,
       { fileStored := true, documentCreated := true, tasksScheduled := 1 }) ∧
    upload_audio (some "text/plain") =
      (UploadResponse.httpError 400 "Unsupported file type",
       { fileStored := false, documentCreated := false, tasksScheduled := 0 }) ∧
    upload_audio Option.none =
      (UploadResponse.httpError 400 "Unsupported file type",
       { fileStored := false, documentCreated := false, tasksScheduled := 0 }) :=
  ⟨(upload_audio_validation (some "audio/wav")).2.2 "audio/wav" rfl (by decide),
   (upload_audio_validation (some "text/plain")).2.1 "text/plain" rfl (by decide),
   (upload_audio_validation Option.none).1 rfl⟩

/-- Claim C6, counterexample: with `icbhi_path = None` (and `use_icbhi_import`
at its default True) but a checkpoint whose `torch.load` fails, the unguarded
read at `hftt_model.py` line 106 raises `FileNotFoundError` before the guard is
reached, so the function does not raise `RuntimeError` as the claim states for
every call with `icbhi_path = None`. -/
theorem load_model_checkpoint_error_uncaught :
    load_model_with_wrapper (Except.error "FileNotFoundError: checkpoint missing")
        true Option.none false (Except.ok (1, 2)) =
      LoadModelOutcome.uncaughtError "FileNotFoundError: checkpoint missing" ∧
    ∀ msg,
      load_model_with_wrapper (Except.error "FileNotFoundError: checkpoint missing")
          true Option.none false (Except.ok (1, 2)) ≠
        LoadModelOutcome.runtimeError msg := by
  refine ⟨rfl, ?_⟩
  intro msg h
  exact LoadModelOutcome.noConfusion h

/-- Claim C6 (amended): `load_model_with_wrapper` first performs the unguarded
`torch.load` of the checkpoint, and a failure there propagates as-is (a
`FileNotFoundError` or `UnpicklingError`, not a `RuntimeError`), whatever the
other arguments.  When the checkpoint read succeeds, the function returns a
(model, classifier) pair exactly when `use_icbhi_import` is true, `icbhi_path`
is given, the ICBHI_2017 directory exists there, and the guarded
import-and-load branch succeeds; a false or missing guard conjunct raises
`RuntimeError`, and an exception inside the branch is re-raised as
`RuntimeError` with no fallback architecture. -/
theorem load_model_with_wrapper_guarded (cp : Except String Unit) (u : Bool)
    (pth : Option String) (de : Bool) (ib : Except String (Nat × Nat)) :
    (∀ e, cp = Except.error e →
      load_model_with_wrapper cp u pth de ib = LoadModelOutcome.uncaughtError e) ∧
    ((∃ m c, load_model_with_wrapper cp u pth de ib = LoadModelOutcome.pair m c) ↔
      (cp = Except.ok () ∧ u = true ∧ pth.isSome = true ∧ de = true ∧
        ∃ mc, ib = Except.ok mc)) ∧
    (cp = Except.ok () → u = false ∨ pth = Option.none ∨ de = false →
      ∃ msg,
        load_model_with_wrapper cp u pth de ib = LoadModelOutcome.runtimeError msg) ∧
    (∀ e, cp = Except.ok () → ib = Except.error e →
      ∃ msg,
        load_model_with_wrapper cp u pth de ib = LoadModelOutcome.runtimeError msg) := by
  unfold load_model_with_wrapper
  cases cp <;> cases u <;> cases pth <;> cases de <;> cases ib <;> simp

/-- Witness for C6: a failing checkpoint read escapes as-is; with the
checkpoint read, the guard satisfied and a succeeding branch the pair is
returned, while a failing branch or a false guard conjunct yields
RuntimeError. -/
theorem load_model_with_wrapper_guarded_witness :
    load_model_with_wrapper (Except.error "UnpicklingError") true
        (some "/data/ICBHI_2017") true (Except.ok (1, 2)) =
      LoadModelOutcome.uncaughtError "UnpicklingError" ∧
    (∃ m c, load_model_with_wrapper (Except.ok ()) true (some "/data/ICBHI_2017")
        true (Except.ok (1, 2)) = LoadModelOutcome.pair m c) ∧
    (∃ msg, load_model_with_wrapper (Except.ok ()) true (some "/data/ICBHI_2017")
        true (Except.error "ImportError") = LoadModelOutcome.runtimeError msg) ∧
    (∃ msg, load_model_with_wrapper (Except.ok ()) false (some "/data/ICBHI_2017")
        true (Except.ok (1, 2)) = LoadModelOutcome.runtimeError msg) :=
  ⟨(load_model_with_wrapper_guarded (Except.error "UnpicklingError") true
      (some "/data/ICBHI_2017") true (Except.ok (1, 2))).1 "UnpicklingError" rfl,
   (load_model_with_wrapper_guarded (Except.ok ()) true (some "/data/ICBHI_2017")
      true (Except.ok (1, 2))).2.1.mpr ⟨rfl, rfl, rfl, rfl, (1, 2), rfl⟩,
   (load_model_with_wrapper_guarded (Except.ok ()) true (some "/data/ICBHI_2017")
      true (Except.error "ImportError")).2.2.2 "ImportError" rfl rfl,
   (load_model_with_wrapper_guarded (Except.ok ()) false (some "/data/ICBHI_2017")
      true (Except.ok (1, 2))).2.2.1 rfl (Or.inl rfl)⟩

/-- Helper: once the cell holds an object, any further sequence of load calls
neither replaces it nor constructs anything. -/
theorem foldl_loads_stable (x : Nat) (n : Nat) :
    ∀ l : List Nat,
      l.foldl
        (fun acc fresh =>
          let st := loadCriticalSection fresh acc.1
          (st.1, acc.2 + (if st.2 then 1 else 0)))
        (some x, n) = (some x, n) := by
  intro l
  induction l with
  | nil => rfl
  | cons a l ih => exact ih

/-- Claim C7: per service instance, loading is lazy and happens at most once -
a load call constructs only when nothing is loaded, once set the reference is
never replaced, any serialized sequence of load calls (the asyncio lock
serializes the critical sections) performs at most one construction, and
predict triggers a load exactly when the loaded reference is `None`. -/
theorem lazy_load_at_most_once (s f : Nat) (freshes : List Nat) :
    loadCriticalSection f (some s) = (some s, false) ∧
    loadCriticalSection f Option.none = (some f, true) ∧
    runLoads (some s) freshes = (some s, 0) ∧
    runLoads Option.none (f :: freshes) = (some f, 1) ∧
    (runLoads Option.none freshes).2 ≤ 1 ∧
    predictTriggersLoad (some s) = false ∧
    predictTriggersLoad Option.none = true := by
  refine ⟨rfl, rfl, foldl_loads_stable s 0 freshes, foldl_loads_stable f 1 freshes, ?_, rfl, rfl⟩
  cases freshes with
  | nil => exact Nat.zero_le 1
  | cons a l =>
      have h : runLoads Option.none (a :: l) = (some a, 1) := foldl_loads_stable a 1 l
      rw [h]

/-- Claim C8: for every decoded waveform, `load_waveform` returns exactly
`sample_rate * DEFAULT_DURATION_SEC` samples (80000 at the default 16000 Hz):
shorter audio is zero-padded at the end to that length and longer audio is
truncated to its first `sample_rate * DEFAULT_DURATION_SEC` samples. -/
theorem load_waveform_pads_or_truncates (decoded : List ℚ) (sample_rate : Nat) :
    (load_waveform decoded sample_rate).length = sample_rate * DEFAULT_DURATION_SEC ∧
    (decoded.length < sample_rate * DEFAULT_DURATION_SEC →
      load_waveform decoded sample_rate =
        decoded ++ List.replicate (sample_rate * DEFAULT_DURATION_SEC - decoded.length) 0) ∧
    (sample_rate * DEFAULT_DURATION_SEC ≤ decoded.length →
      load_waveform decoded sample_rate =
        decoded.take (sample_rate * DEFAULT_DURATION_SEC)) ∧
    DEFAULT_SAMPLE_RATE * DEFAULT_DURATION_SEC = 80000 := by
  refine ⟨?_, ?_, ?_, rfl⟩
  · by_cases h : decoded.length < sample_rate * DEFAULT_DURATION_SEC
    · simp only [load_waveform, if_pos h, List.length_append, List.length_replicate]
      omega
    · simp only [load_waveform, if_neg h, List.length_take]
      omega
  · intro h
    simp only [load_waveform, if_pos h]
  · intro h
    simp only [load_waveform, if_neg (Nat.not_lt.mpr h)]

/-- Witness for C8 at 1 Hz (target length 5): the three-sample waveform is
padded with two zeros and the six-sample waveform is cut to five samples. -/
theorem load_waveform_pads_or_truncates_witness :
    load_waveform [(1 : ℚ), 2, 3] 1 = [1, 2, 3, 0, 0] ∧
    load_waveform [(1 : ℚ), 2, 3, 4, 5, 6] 1 = [1, 2, 3, 4, 5] :=
  ⟨((load_waveform_pads_or_truncates [(1 : ℚ), 2, 3] 1).2.1 (by decide)).trans rfl,
   ((load_waveform_pads_or_truncates [(1 : ℚ), 2, 3, 4, 5, 6] 1).2.2.1 (by decide)).trans rfl⟩

/-- Claim C9: `PredictionRepository.get` returns `None` without raising both
for every id string that is not a valid BSON ObjectId (the `InvalidId` raised
by `ObjectId(prediction_id)` is caught) and for every valid id with no matching
document, and the GET endpoint maps a `None` result to HTTP 404 while returning
the stored record unchanged otherwise.  (The embedding is a total function, so
no input raises.) -/
theorem repository_get_total (db : List (String × StoredDoc)) (id : String) :
    (isValidObjectId id = false → repository_get db id = Option.none) ∧
    (db.lookup id = Option.none → repository_get db id = Option.none) ∧
    (repository_get db id = Option.none →
      get_prediction_endpoint db id = Except.error (404, "Prediction not found")) ∧
    (∀ p, repository_get db id = some p →
      get_prediction_endpoint db id = Except.ok p) := by
  refine ⟨?_, ?_, ?_, ?_⟩
  · intro h
    simp [repository_get, h]
  · intro h
    by_cases hv : isValidObjectId id <;> simp [repository_get, hv, h]
  · intro h
    simp [get_prediction_endpoint, h]
  · intro p h
    simp [get_prediction_endpoint, h]

/-- Witness for C9: the malformed id "zzz" and the unmatched valid id both give
`None` and HTTP 404, and the stored example document is returned unchanged. -/
theorem repository_get_total_witness :
    repository_get exampleDb "zzz" = Option.none ∧
    repository_get exampleDb "507f1f77bcf86cd799439012" = Option.none ∧
    get_prediction_endpoint exampleDb "507f1f77bcf86cd799439012" =
      Except.error (404, "Prediction not found") ∧
    get_prediction_endpoint exampleDb exampleId = Except.ok exampleDoc :=
  ⟨(repository_get_total exampleDb "zzz").1 (by decide),
   (repository_get_total exampleDb "507f1f77bcf86cd799439012").2.1 (by decide),
   (repository_get_total exampleDb "507f1f77bcf86cd799439012").2.2.1
     ((repository_get_total exampleDb "507f1f77bcf86cd799439012").2.1 (by decide)),
   (repository_get_total exampleDb exampleId).2.2.2 exampleDoc (by decide)⟩

/-- Claim C10, counterexample: the 24-character id "not-a-valid-objectid-xyz"
matches no stored document, yet `update_status` raises `InvalidId`
(`ObjectId(prediction_id)` stands outside any try-block) instead of returning
`None` as the claim states for every id without a matching document. -/
theorem update_status_invalid_id_raises :
    exampleDb.lookup "not-a-valid-objectid-xyz" = Option.none ∧
    update_status exampleDb "not-a-valid-objectid-xyz" PredictionStatus.failed
        Option.none Option.none Option.none (some "boom") 1 =
      Except.error "InvalidId" ∧
    update_status exampleDb "not-a-valid-objectid-xyz" PredictionStatus.failed
        Option.none Option.none Option.none (some "boom") 1 ≠
      Except.ok (Option.none, exampleDb) := by
  refine ⟨by decide, by decide, ?_⟩
  intro h
  exact absurd h (by decide)

/-- Claim C10 (amended): `update_status` writes only `status`, `updated_at` and
those of `label`, `confidence`, `probabilities`, `notes` passed non-`None`,
leaving `filename`, `content_type`, `file_size`, `storage_path`, `created_at`
and `user_id` unchanged; for a valid ObjectId with no matching document it
returns `None` and modifies nothing; for an id that is not a valid ObjectId it
raises `InvalidId` (likewise modifying nothing) instead of returning `None`. -/
theorem update_status_frame (db : List (String × StoredDoc)) (id : String)
    (st : PredictionStatus) (l : Option Label) (c : Option ℚ)
    (pr : Option (List (String × ℚ))) (n : Option String) (now : Nat) :
    (isValidObjectId id = false →
      update_status db id st l c pr n now = Except.error "InvalidId") ∧
    (isValidObjectId id = true → db.lookup id = Option.none →
      update_status db id st l c pr n now = Except.ok (Option.none, db)) ∧
    (∀ doc, isValidObjectId id = true → db.lookup id = some doc →
      update_status db id st l c pr n now =
        Except.ok (some (applySetUpdates doc st l c pr n now),
          db.map (fun kv =>
            if kv.1 = id then (kv.1, applySetUpdates doc st l c pr n now) else kv)) ∧
      (applySetUpdates doc st l c pr n now).filename = doc.filename ∧
      (applySetUpdates doc st l c pr n now).content_type = doc.content_type ∧
      (applySetUpdates doc st l c pr n now).file_size = doc.file_size ∧
      (applySetUpdates doc st l c pr n now).storage_path = doc.storage_path ∧
      (applySetUpdates doc st l c pr n now).created_at = doc.created_at ∧
      (applySetUpdates doc st l c pr n now).user_id = doc.user_id ∧
      (applySetUpdates doc st l c pr n now).status = st.value ∧
      (applySetUpdates doc st l c pr n now).updated_at = now ∧
      (l = Option.none → (applySetUpdates doc st l c pr n now).label = doc.label) ∧
      (∀ x, l = some x → (applySetUpdates doc st l c pr n now).label = some x.value) ∧
      (c = Option.none →
        (applySetUpdates doc st l c pr n now).confidence = doc.confidence) ∧
      (∀ x, c = some x → (applySetUpdates doc st l c pr n now).confidence = some x) ∧
      (pr = Option.none →
        (applySetUpdates doc st l c pr n now).probabilities = doc.probabilities) ∧
      (∀ x, pr = some x →
        (applySetUpdates doc st l c pr n now).probabilities = some x) ∧
      (n = Option.none → (applySetUpdates doc st l c pr n now).notes = doc.notes) ∧
      (∀ x, n = some x → (applySetUpdates doc st l c pr n now).notes = some x)) := by
  refine ⟨?_, ?_, ?_⟩
  · intro h
    simp [update_status, h]
  · intro hv h
    simp [update_status, hv, h]
  · intro doc hv h
    refine ⟨by simp [update_status, hv, h], rfl, rfl, rfl, rfl, rfl, rfl, rfl, rfl,
            ?_, ?_, ?_, ?_, ?_, ?_, ?_, ?_⟩
    · rintro rfl; rfl
    · rintro x rfl; rfl
    · rintro rfl; rfl
    · rintro x rfl; rfl
    · rintro rfl; rfl
    · rintro x rfl; rfl
    · rintro rfl; rfl
    · rintro x rfl; rfl

/-- Witness for C10 at concrete inputs: an invalid id raises, a valid unmatched
id returns `None` with the collection untouched, and an update of the example
document keeps `filename` while writing status "completed". -/
theorem update_status_frame_witness :
    update_status exampleDb "aaaaaaaaaaaaaaaaaaaaaaab" PredictionStatus.failed
        Option.none Option.none Option.none Option.none 1 =
      Except.ok (Option.none, exampleDb) ∧
    update_status exampleDb "~" PredictionStatus.failed
        Option.none Option.none Option.none Option.none 1 =
      Except.error "InvalidId" ∧
    (applySetUpdates exampleDoc PredictionStatus.completed (some Label.wheeze)
        Option.none Option.none (some "ok") 7).filename = exampleDoc.filename ∧
    (applySetUpdates exampleDoc PredictionStatus.completed (some Label.wheeze)
        Option.none Option.none (some "ok") 7).status = PredictionStatus.completed.value :=
  ⟨(update_status_frame exampleDb "aaaaaaaaaaaaaaaaaaaaaaab" PredictionStatus.failed
      Option.none Option.none Option.none Option.none 1).2.1 (by decide) (by decide),
   (update_status_frame exampleDb "~" PredictionStatus.failed
      Option.none Option.none Option.none Option.none 1).1 (by decide),
   ((update_status_frame exampleDb exampleId PredictionStatus.completed
      (some Label.wheeze) Option.none Option.none (some "ok") 7).2.2 exampleDoc
      (by decide) (by decide)).2.1,
   ((update_status_frame exampleDb exampleId PredictionStatus.completed
      (some Label.wheeze) Option.none Option.none (some "ok") 7).2.2 exampleDoc
      (by decide) (by decide)).2.2.2.2.2.2.2.1⟩
